import Mathlib

/-!
Verification development for the blender-debugger-for-vscode add-on.

The Python sources (`__init__.py`, `dependency_manager.py`) are shallowly
embedded below.  External behaviour (the filesystem, `sysconfig`, `sys.path`,
subprocess output, `os.path.normpath`, `os.path.dirname`) is abstracted into
an environment record `OsEnv`; the add-on's own control flow is translated
function by function.  Path joining is modelled with a fixed `/` separator.
Exceptions raised by `subprocess.Popen` and caught by the code are modelled by
the corresponding environment field being `none`.
-/

set_option autoImplicit false

namespace BlenderDebugger

/-- Model of `os.path.join` with two arguments (separator fixed to `/`). -/
def pathJoin (a b : String) : String := a ++ "/" ++ b

/-- Model of `os.path.join` with several trailing components. -/
def pathJoinList (a : String) (cs : List String) : String := cs.foldl pathJoin a

/-- Model of the Python substring test `pat in s` for non-empty `pat`:
`s.splitOn pat` has at least two pieces exactly when `pat` occurs in `s`. -/
def hasSubstr (s pat : String) : Bool := (s.splitOn pat).length > 1

/-- The text of `s` after the first occurrence of `pat`, as produced by
`re.search("pat(.*)", s).group(1)` on a single line containing `pat`. -/
def afterFirst (s pat : String) : String :=
  String.intercalate pat ((s.splitOn pat).tail)

/-- Environment of `check_for_debugpy` (`__init__.py`): everything the
function observes about the interpreter, the filesystem and subprocesses.

* `platlib` — result of `sysconfig.get_path("platlib")`;
* `sysPath` — `sys.path`;
* `pathExists` — `os.path.exists`;
* `normpath` — `os.path.normpath`;
* `dirname` — `os.path.dirname`;
* `pipShowLines` — the `splitlines()` of the decoded stdout of
  `pip show debugpy`, or `none` when `subprocess.Popen` raised (the code
  prints the exception and skips the strategy);
* `cmdOut` — stdout lines of each of the `where`/`whereis`/`which` probes,
  or `none` when spawning that probe raised (printed and skipped). -/
structure OsEnv where
  platlib : Option String
  sysPath : List String
  pathExists : String → Bool
  normpath : String → String
  dirname : String → String
  pipShowLines : Option (List String)
  cmdOut : List String → Option (List String)

/-- Sentinel returned by `check_for_debugpy` when nothing is found
(`__init__.py`, line 44). -/
def NOT_FOUND_MESSAGE : String := "debugpy not found"

/-- Strategy 1 of `check_for_debugpy`: the interpreter's platform-library
path (`sysconfig.get_path("platlib")`); accepted when `<path>/debugpy`
exists. The `if path:` truthiness test rejects `none` and the empty string. -/
def strategy1 (env : OsEnv) : Option String :=
  match env.platlib with
  | none => none
  | some raw =>
    if raw = "" then none
    else
      let p := env.normpath raw
      if env.pathExists (pathJoin p "debugpy") then some p else none

/-- Strategy 2 of `check_for_debugpy`: each `sys.path` entry, then its
`site-packages` and `lib/site-packages` subdirectories; first match wins. -/
def strategy2 (env : OsEnv) : Option String :=
  env.sysPath.findSome? (fun entry =>
    let p := env.normpath entry
    if env.pathExists (pathJoin p "debugpy") then some p
    else if env.pathExists (pathJoinList p ["site-packages", "debugpy"]) then
      some (pathJoin p "site-packages")
    else if env.pathExists (pathJoinList p ["lib", "site-packages", "debugpy"]) then
      some (pathJoinList p ["lib", "site-packages"])
    else none)

/-- Strategy 3 of `check_for_debugpy`: parse the `Location:` lines of
`pip show debugpy`; for each such line take the text after `Location: `,
right-strip it, normalize it, and accept when `<loc>/debugpy` exists.
On a line containing `Location: ` the regex search always succeeds, so the
`if match is not None` guard of the source is always taken. -/
def strategy3 (env : OsEnv) : Option String :=
  match env.pipShowLines with
  | none => none
  | some lines =>
    (lines.filter (fun x => hasSubstr x "Location: ")).findSome? (fun x =>
      let loc := env.normpath ((afterFirst x "Location: ").trimRight)
      if env.pathExists (pathJoin loc "debugpy") then some loc else none)

/-- The three system-Python probes of strategy 4, in source order. -/
def whereChecks : List (List String) :=
  [["where", "python"], ["whereis", "python"], ["which", "python"]]

/-- Strategy 4 of `check_for_debugpy`: for each probe command whose spawn
succeeded, for each stdout line, take the directory of the normalized path
and accept `lib/site-packages` under it when it holds `debugpy`. A probe
whose spawn raised is skipped (`continue` in the source). -/
def strategy4 (env : OsEnv) : Option String :=
  whereChecks.findSome? (fun cmd =>
    match env.cmdOut cmd with
    | none => none
    | some lines =>
      lines.findSome? (fun line =>
        let p := env.dirname (env.normpath line)
        if env.pathExists (pathJoinList p ["lib", "site-packages", "debugpy"]) then
          some (pathJoinList p ["lib", "site-packages"])
        else none))

/-- `check_for_debugpy` (`__init__.py`, lines 67–140): the four strategies
in order, first success returned; the sentinel if all fail. Each `return`
in the source corresponds to the strategy producing `some`. -/
def check_for_debugpy (env : OsEnv) : String :=
  match strategy1 env with
  | some p => p
  | none =>
    match strategy2 env with
    | some p => p
    | none =>
      match strategy3 env with
      | some p => p
      | none =>
        match strategy4 env with
        | some p => p
        | none => NOT_FOUND_MESSAGE

/-! Embedding of `dependency_manager.py`. -/

/-- Dependency descriptor (`dependency_manager.py`, class `Dependency`), after
`__post_init__` has resolved the defaults: `package`, `aliasName` and
`display_name` fall back to `module` when not given. The source field `alias`
is rendered `aliasName` here. -/
structure Dependency where
  module : String
  package : String
  aliasName : String
  display_name : String
  version : Option String
deriving DecidableEq, Repr

/-- Constructor of `Dependency` including `__post_init__`: each optional
field defaults to the module name; `version` stays optional. -/
def Dependency.make (module : String) (package aliasName display_name : Option String)
    (version : Option String) : Dependency :=
  { module := module
    package := package.getD module
    aliasName := aliasName.getD module
    display_name := display_name.getD module
    version := version }

/-- Python exceptions the embedded code can raise or catch. -/
inductive PyExc where
  | CalledProcessError
  | ImportError
  | ValueError
deriving DecidableEq, Repr

/-- One `subprocess.run` invocation: its argument list and whether the
child environment had `PYTHONNOUSERSITE` set to `"1"`. -/
structure SubprocessCall where
  argv : List String
  pythonNoUserSite : Bool
deriving DecidableEq, Repr

/-- Observable outcome of `install_module` / `uninstall_module`: the
subprocess calls issued, the exception texts printed (swallowed), and the
exception propagating out of the function, if any. -/
structure CallOutcome where
  calls : List SubprocessCall
  printed : List String
  raised : Option PyExc
deriving DecidableEq, Repr

/-- `install_module` (`dependency_manager.py`, lines 159–189). `pythonExe`
stands for `sys.executable` and `exitCode` for the exit status the spawned
process would return on a given argument list; `check=True` turns a non-zero
status into a `CalledProcessError`, which the function catches and prints. -/
def install_module (pythonExe : String) (exitCode : List String → Int)
    (package_name : Option String) (package_requirements : Option String) : CallOutcome :=
  match package_name with
  | none => { calls := [], printed := [], raised := some .ValueError }
  | some pkg =>
    let ver := package_requirements.getD ""
    let requirement := pkg ++ ver
    let argv := [pythonExe, "-m", "pip", "install", "--upgrade", requirement]
    let call : SubprocessCall := { argv := argv, pythonNoUserSite := true }
    if exitCode argv = 0 then { calls := [call], printed := [], raised := none }
    else
      { calls := [call]
        printed := ["CalledProcessError: " ++ requirement]
        raised := none }

/-- `uninstall_module` (`dependency_manager.py`, lines 192–220): same shape
as `install_module` with `pip uninstall --yes` and no version constraint. -/
def uninstall_module (pythonExe : String) (exitCode : List String → Int)
    (package_name : Option String) : CallOutcome :=
  match package_name with
  | none => { calls := [], printed := [], raised := some .ValueError }
  | some pkg =>
    let argv := [pythonExe, "-m", "pip", "uninstall", "--yes", pkg]
    let call : SubprocessCall := { argv := argv, pythonNoUserSite := true }
    if exitCode argv = 0 then { calls := [call], printed := [], raised := none }
    else
      { calls := [call]
        printed := ["CalledProcessError: " ++ pkg]
        raised := none }

/-- Interpreter state observed and mutated by `import_module`:
`sysModules` models `sys.modules` as an association list from alias to a
module identity, `execLog` records each module whose initialization code was
executed (`spec.loader.exec_module`), and `nextId` supplies the identity of
the next module object created by `importlib.util.module_from_spec`. -/
structure PyState where
  sysModules : List (String × Nat)
  execLog : List Nat
  nextId : Nat
deriving DecidableEq, Repr

/-- `import_module` (`dependency_manager.py`, lines 103–135). `findSpec`
models `importlib.util.find_spec`. When the alias is already in
`sys.modules` the function returns `None` without touching the state; when
no spec is found it returns `None`; otherwise it creates a module, registers
it under the alias, executes its initialization code and returns it. The
`reload` parameter is accepted and unused, as in the source. -/
def import_module (findSpec : String → Bool) (module_name : String)
    (alias_name : Option String) (reload : Bool) (s : PyState) : Option Nat × PyState :=
  let aliasName := alias_name.getD module_name
  if (s.sysModules.lookup aliasName).isSome then (none, s)
  else if findSpec module_name then
    let m := s.nextId
    (some m,
      { sysModules := (aliasName, m) :: s.sysModules
        execLog := s.execLog ++ [m]
        nextId := s.nextId + 1 })
  else (none, s)

/-- `check_dependency_state` (`dependency_manager.py`, lines 318–330),
returned together with the (unchanged) interpreter state to make the absence
of import side effects visible: the body only consults `sys.modules` and
`find_spec`, it never executes a module. -/
def check_dependency_state (findSpec : String → Bool) (dep : Option Dependency)
    (s : PyState) : Bool × PyState :=
  match dep with
  | none => (false, s)
  | some d =>
    if (s.sysModules.lookup d.module).isSome then (true, s)
    else if findSpec d.module then (true, s)
    else (false, s)

/-- `check_all_dependencies` (`dependency_manager.py`, lines 301–306):
`False` when no dependency list was declared, otherwise the conjunction of
the per-dependency checks. -/
def check_all_dependencies (findSpec : String → Bool)
    (dependencies : Option (List Dependency)) (s : PyState) : Bool :=
  match dependencies with
  | none => false
  | some deps => deps.all (fun dep => (check_dependency_state findSpec (some dep) s).1)

/-- Return values of Blender operators used by this add-on. -/
inductive OpResult where
  | FINISHED
  | CANCELLED
  | PASS_THROUGH
  | RUNNING_MODAL
deriving DecidableEq, Repr

/-- Accumulated observable effects of an operator run: subprocess calls,
error strings reported to the UI via `self.report({"ERROR"}, ...)`, and
exception texts merely printed to the console. -/
structure OpTrace where
  calls : List SubprocessCall
  reports : List String
  printed : List String
deriving DecidableEq, Repr

/-- Loop body of `DEPENDENCY_OT_install_dependencies.execute`: install each
dependency in turn; a `CalledProcessError` or `ImportError` escaping
`install_module` is reported and cancels the run, any other exception
propagates (`Except.error`). Reaching the end returns `FINISHED` (the
subsequent `register_dependant_classes()` call is host-side registration
with no subprocess or report effects and is not modelled). -/
def installLoop (pythonExe : String) (exitCode : List String → Int) :
    List Dependency → OpTrace → Except PyExc (OpResult × OpTrace)
  | [], tr => Except.ok (OpResult.FINISHED, tr)
  | dep :: rest, tr =>
    let out := install_module pythonExe exitCode (some dep.package) dep.version
    let tr := { tr with calls := tr.calls ++ out.calls, printed := tr.printed ++ out.printed }
    match out.raised with
    | none => installLoop pythonExe exitCode rest tr
    | some PyExc.CalledProcessError =>
      Except.ok (OpResult.CANCELLED, { tr with reports := tr.reports ++ ["CalledProcessError"] })
    | some PyExc.ImportError =>
      Except.ok (OpResult.CANCELLED, { tr with reports := tr.reports ++ ["ImportError"] })
    | some e => Except.error e

/-- `DEPENDENCY_OT_install_dependencies.execute` (`dependency_manager.py`,
lines 235–254): cancelled immediately when no dependency list is declared;
otherwise installs either every dependency or the ones matching the
operator's `package_name` property. -/
def DEPENDENCY_OT_install_dependencies_execute (pythonExe : String)
    (exitCode : List String → Int) (dependencies : Option (List Dependency))
    (package_name : String) : Except PyExc (OpResult × OpTrace) :=
  match dependencies with
  | none => Except.ok (OpResult.CANCELLED, { calls := [], reports := [], printed := [] })
  | some deps =>
    let depList := if package_name = "" then deps
      else deps.filter (fun dep => dep.package = package_name)
    installLoop pythonExe exitCode depList { calls := [], reports := [], printed := [] }

/-- Loop body of `DEPENDENCY_OT_uninstall_dependencies.execute`, mirroring
`installLoop` with `uninstall_module`. -/
def uninstallLoop (pythonExe : String) (exitCode : List String → Int) :
    List Dependency → OpTrace → Except PyExc (OpResult × OpTrace)
  | [], tr => Except.ok (OpResult.FINISHED, tr)
  | dep :: rest, tr =>
    let out := uninstall_module pythonExe exitCode (some dep.package)
    let tr := { tr with calls := tr.calls ++ out.calls, printed := tr.printed ++ out.printed }
    match out.raised with
    | none => uninstallLoop pythonExe exitCode rest tr
    | some PyExc.CalledProcessError =>
      Except.ok (OpResult.CANCELLED, { tr with reports := tr.reports ++ ["CalledProcessError"] })
    | some PyExc.ImportError =>
      Except.ok (OpResult.CANCELLED, { tr with reports := tr.reports ++ ["ImportError"] })
    | some e => Except.error e

/-- `DEPENDENCY_OT_uninstall_dependencies.execute` (`dependency_manager.py`,
lines 268–286). -/
def DEPENDENCY_OT_uninstall_dependencies_execute (pythonExe : String)
    (exitCode : List String → Int) (dependencies : Option (List Dependency))
    (package_name : String) : Except PyExc (OpResult × OpTrace) :=
  match dependencies with
  | none => Except.ok (OpResult.CANCELLED, { calls := [], reports := [], printed := [] })
  | some deps =>
    let depList := if package_name = "" then deps
      else deps.filter (fun dep => dep.package = package_name)
    uninstallLoop pythonExe exitCode depList { calls := [], reports := [], printed := [] }

/-! Embedding of the attach-confirmation poller and the preferences
declaration of `__init__.py`. -/

/-- `check_done` (`__init__.py`, lines 193–202): given the tick counter `i`,
the tick limit and the current value of `debugpy.is_client_connected()`,
produce the modal result. The periodic `print` calls have no modelled
effect. -/
def check_done (i modal_limit : Nat) (connected : Bool) : OpResult :=
  if i > modal_limit then OpResult.CANCELLED
  else if !connected then OpResult.PASS_THROUGH
  else OpResult.FINISHED

/-- One `DebuggerCheck.modal` invocation (`__init__.py`, lines 215–220):
the counter is incremented first; on a timer event `check_done` runs with
the new counter, any other event passes through. Returns the modal result
and the new counter. -/
def DebuggerCheck_modal (modal_limit : Nat) (connected : Nat → Bool)
    (count : Nat) (eventIsTimer : Bool) : OpResult × Nat :=
  let c := count + 1
  if eventIsTimer then (check_done c modal_limit (connected c), c)
  else (OpResult.PASS_THROUGH, c)

/-- Host-side modal driver: starting from counter `count`, deliver timer
events until `check_done` returns something other than `PASS_THROUGH`
(the host keeps the modal alive exactly on `PASS_THROUGH`), giving the
terminal result and the counter at which it occurred. `fuel` bounds the
recursion; `none` means the bound was hit first. `connected` gives the
value of the client-connected flag at each tick. -/
def runPoller (modal_limit : Nat) (connected : Nat → Bool) :
    Nat → Nat → Option (OpResult × Nat)
  | 0, _ => none
  | fuel + 1, count =>
    match DebuggerCheck_modal modal_limit connected count true with
    | (OpResult.PASS_THROUGH, c) => runPoller modal_limit connected fuel c
    | (r, c) => some (r, c)

/-- Shape of one Blender property declaration on the preferences class. -/
inductive PrefProp where
  | stringProp (name subtype : String)
  | intProp (name : String) (default : Int) (min max : Option Int)
deriving DecidableEq, Repr

/-- The persisted preference values declared on `DebuggerPreferences`
(`__init__.py`, lines 145–164), in declaration order: `path` is a
`StringProperty` with subtype `DIR_PATH` (its default is the result of
`check_for_debugpy()` at class-creation time), `timeout` is an
`IntProperty` with default `20` and no bounds, `port` is an `IntProperty`
with `min=0`, `max=65535`, default `5678`. -/
def DebuggerPreferences_props : List PrefProp :=
  [PrefProp.stringProp "path" "DIR_PATH",
   PrefProp.intProp "timeout" 20 none none,
   PrefProp.intProp "port" 5678 (some 0) (some 65535)]

/-! Helper lemmas about `List.findSome?`, shared by the resolver proofs. -/

theorem findSome_eq_some_mem {α β : Type} (l : List α) (f : α → Option β) (p : β)
    (h : l.findSome? f = some p) : ∃ x, x ∈ l ∧ f x = some p := by
  induction l with
  | nil => simp [List.findSome?] at h
  | cons a t ih =>
    rw [List.findSome?_cons] at h
    cases hfa : f a with
    | none =>
      rw [hfa] at h
      obtain ⟨x, hx, hfx⟩ := ih h
      exact ⟨x, List.mem_cons_of_mem a hx, hfx⟩
    | some b =>
      rw [hfa] at h
      simp only at h
      exact ⟨a, List.mem_cons_self a t, by rw [hfa, h]⟩

theorem findSome_isSome_of_mem {α β : Type} (l : List α) (f : α → Option β) (x : α) (y : β)
    (hx : x ∈ l) (hf : f x = some y) : (l.findSome? f).isSome = true := by
  induction l with
  | nil => cases hx
  | cons a t ih =>
    rw [List.findSome?_cons]
    cases hfa : f a with
    | none =>
      rcases List.mem_cons.mp hx with rfl | hmem
      · rw [hfa] at hf; cases hf
      · exact ih hmem
    | some b => simp

/-! Per-strategy lemmas: any path a strategy produces contains `debugpy`. -/

theorem strategy1_hit (env : OsEnv) (p : String) (h : strategy1 env = some p) :
    env.pathExists (pathJoin p "debugpy") = true := by
  unfold strategy1 at h
  cases hpl : env.platlib with
  | none => rw [hpl] at h; cases h
  | some raw =>
    rw [hpl] at h
    by_cases hr : raw = ""
    · simp [hr] at h
    · simp only [if_neg hr] at h
      by_cases hex : env.pathExists (pathJoin (env.normpath raw) "debugpy") = true
      · rw [if_pos hex] at h
        cases h
        exact hex
      · rw [if_neg hex] at h; cases h

theorem strategy2_hit (env : OsEnv) (p : String) (h : strategy2 env = some p) :
    env.pathExists (pathJoin p "debugpy") = true := by
  unfold strategy2 at h
  obtain ⟨entry, _, hf⟩ := findSome_eq_some_mem _ _ _ h
  simp only at hf
  by_cases h1 : env.pathExists (pathJoin (env.normpath entry) "debugpy") = true
  · rw [if_pos h1] at hf
    cases hf
    exact h1
  · rw [if_neg h1] at hf
    by_cases h2 : env.pathExists (pathJoinList (env.normpath entry) ["site-packages", "debugpy"]) = true
    · rw [if_pos h2] at hf
      cases hf
      exact h2
    · rw [if_neg h2] at hf
      by_cases h3 : env.pathExists
          (pathJoinList (env.normpath entry) ["lib", "site-packages", "debugpy"]) = true
      · rw [if_pos h3] at hf
        cases hf
        exact h3
      · rw [if_neg h3] at hf; cases hf

theorem strategy3_hit (env : OsEnv) (p : String) (h : strategy3 env = some p) :
    env.pathExists (pathJoin p "debugpy") = true := by
  unfold strategy3 at h
  cases hpi : env.pipShowLines with
  | none => rw [hpi] at h; cases h
  | some lines =>
    rw [hpi] at h
    obtain ⟨x, _, hf⟩ := findSome_eq_some_mem _ _ _ h
    simp only at hf
    by_cases hex : env.pathExists
        (pathJoin (env.normpath ((afterFirst x "Location: ").trimRight)) "debugpy") = true
    · rw [if_pos hex] at hf
      cases hf
      exact hex
    · rw [if_neg hex] at hf; cases hf

theorem strategy4_hit (env : OsEnv) (p : String) (h : strategy4 env = some p) :
    env.pathExists (pathJoin p "debugpy") = true := by
  unfold strategy4 at h
  obtain ⟨cmd, _, hf⟩ := findSome_eq_some_mem _ _ _ h
  cases hout : env.cmdOut cmd with
  | none => rw [hout] at hf; cases hf
  | some lines =>
    rw [hout] at hf
    obtain ⟨line, _, hline⟩ := findSome_eq_some_mem _ _ _ hf
    simp only at hline
    by_cases hex : env.pathExists
        (pathJoinList (env.dirname (env.normpath line)) ["lib", "site-packages", "debugpy"]) = true
    · rw [if_pos hex] at hline
      cases hline
      exact hex
    · rw [if_neg hex] at hline; cases hline

/-! Concrete environments used by the witnesses below. -/

/-- Environment whose platform-library path holds the package. -/
def envPlatHit : OsEnv :=
  { platlib := some "/plat"
    sysPath := []
    pathExists := fun s => s == "/plat/debugpy"
    normpath := id
    dirname := id
    pipShowLines := none
    cmdOut := fun _ => none }

/-- Environment in which every strategy fails and every subprocess probe
raised at spawn time. -/
def envAllFail : OsEnv :=
  { platlib := none
    sysPath := []
    pathExists := fun _ => false
    normpath := id
    dirname := id
    pipShowLines := none
    cmdOut := fun _ => none }

/-- Environment whose platform-library path holds the package, used by the
resolver-result witness. -/
def envResultHit : OsEnv :=
  { platlib := some "/usr/plat"
    sysPath := []
    pathExists := fun s => s == "/usr/plat/debugpy"
    normpath := id
    dirname := id
    pipShowLines := none
    cmdOut := fun _ => none }

/-- C3: `check_for_debugpy` tries its four strategies in the fixed priority
order — platform-library path, module-search-path entries with their
`site-packages` and `lib/site-packages` subdirectories, the `pip show`
`Location:` field, and system-Python lookup via `where`/`whereis`/`which` —
and whenever a strategy finds the package at its expected location while the
earlier strategies found nothing, its path is returned and no later strategy
decides the result; the last four conjuncts show each strategy succeeds when
the package directory exists at its expected location. -/
theorem c3_resolver_priority_order (env : OsEnv) :
    (∀ p, strategy1 env = some p → check_for_debugpy env = p) ∧
    (∀ p, strategy1 env = none → strategy2 env = some p → check_for_debugpy env = p) ∧
    (∀ p, strategy1 env = none → strategy2 env = none → strategy3 env = some p →
      check_for_debugpy env = p) ∧
    (∀ p, strategy1 env = none → strategy2 env = none → strategy3 env = none →
      strategy4 env = some p → check_for_debugpy env = p) ∧
    (∀ raw, env.platlib = some raw → ¬ raw = "" →
      env.pathExists (pathJoin (env.normpath raw) "debugpy") = true →
      strategy1 env = some (env.normpath raw)) ∧
    (∀ entry, entry ∈ env.sysPath →
      env.pathExists (pathJoin (env.normpath entry) "debugpy") = true →
      (strategy2 env).isSome = true) ∧
    (∀ lines x, env.pipShowLines = some lines → x ∈ lines →
      hasSubstr x "Location: " = true →
      env.pathExists
        (pathJoin (env.normpath ((afterFirst x "Location: ").trimRight)) "debugpy") = true →
      (strategy3 env).isSome = true) ∧
    (∀ cmd lines line, cmd ∈ whereChecks → env.cmdOut cmd = some lines → line ∈ lines →
      env.pathExists (pathJoinList (env.dirname (env.normpath line))
        ["lib", "site-packages", "debugpy"]) = true →
      (strategy4 env).isSome = true) := by
  refine ⟨?_, ?_, ?_, ?_, ?_, ?_, ?_, ?_⟩
  · intro p h
    unfold check_for_debugpy
    rw [h]
  · intro p h1 h2
    unfold check_for_debugpy
    rw [h1, h2]
  · intro p h1 h2 h3
    unfold check_for_debugpy
    rw [h1, h2, h3]
  · intro p h1 h2 h3 h4
    unfold check_for_debugpy
    rw [h1, h2, h3, h4]
  · intro raw hpl hne hex
    unfold strategy1
    rw [hpl]
    simp only [if_neg hne, hex, if_pos]
  · intro entry hmem hex
    unfold strategy2
    exact findSome_isSome_of_mem _ _ entry (env.normpath entry) hmem (by simp [hex])
  · intro lines x hpl hx hsub hex
    unfold strategy3
    rw [hpl]
    exact findSome_isSome_of_mem _ _ x
      (env.normpath ((afterFirst x "Location: ").trimRight))
      (List.mem_filter.mpr ⟨hx, hsub⟩) (by simp [hex])
  · intro cmd lines line hcmd hout hline hex
    unfold strategy4
    have hinner : (lines.findSome? (fun l =>
        if env.pathExists (pathJoinList (env.dirname (env.normpath l))
            ["lib", "site-packages", "debugpy"]) then
          some (pathJoinList (env.dirname (env.normpath l)) ["lib", "site-packages"])
        else none)).isSome = true :=
      findSome_isSome_of_mem _ _ line
        (pathJoinList (env.dirname (env.normpath line)) ["lib", "site-packages"])
        hline (by simp [hex])
    obtain ⟨y, hy⟩ := Option.isSome_iff_exists.mp hinner
    exact findSome_isSome_of_mem _ _ cmd y hcmd (by simp only; rw [hout]; exact hy)

/-- Witness for C3 at a concrete environment: the platform-library strategy
finds the package and the resolver returns its path. -/
theorem c3_resolver_priority_order_witness :
    strategy1 envPlatHit = some "/plat" ∧ check_for_debugpy envPlatHit = "/plat" := by
  have h1 : strategy1 envPlatHit = some "/plat" :=
    (c3_resolver_priority_order envPlatHit).2.2.2.2.1 "/plat" rfl (by decide) (by decide)
  exact ⟨h1, (c3_resolver_priority_order envPlatHit).1 "/plat" h1⟩

/-- C4: when every strategy fails — in particular when the `pip show` spawn
and every `where`/`whereis`/`which` spawn raised — `check_for_debugpy`
returns the sentinel `NOT_FOUND_MESSAGE`; in the embedding the function is
total, so no exception escapes, matching the source's per-probe
`try`/`except` that prints and continues. -/
theorem c4_resolver_sentinel_on_total_failure (env : OsEnv)
    (hpip : env.pipShowLines = none) (hcmd : ∀ cmd, env.cmdOut cmd = none)
    (h1 : strategy1 env = none) (h2 : strategy2 env = none) :
    check_for_debugpy env = NOT_FOUND_MESSAGE := by
  have h3 : strategy3 env = none := by
    unfold strategy3
    rw [hpip]
  have h4 : strategy4 env = none := by
    unfold strategy4
    simp [whereChecks, List.findSome?_cons, hcmd]
  unfold check_for_debugpy
  rw [h1, h2, h3, h4]

/-- Witness for C4: in `envAllFail` every probe is absent and the resolver
yields the sentinel. -/
theorem c4_resolver_sentinel_witness : check_for_debugpy envAllFail = NOT_FOUND_MESSAGE :=
  c4_resolver_sentinel_on_total_failure envAllFail rfl (fun _ => rfl) rfl rfl

/-- C5: whenever `check_for_debugpy` returns something other than the
sentinel, the returned string is a path under which the `debugpy` package
directory exists in the observed filesystem. -/
theorem c5_resolver_result_contains_package (env : OsEnv)
    (h : ¬ check_for_debugpy env = NOT_FOUND_MESSAGE) :
    env.pathExists (pathJoin (check_for_debugpy env) "debugpy") = true := by
  cases h1 : strategy1 env with
  | some p =>
    have hc : check_for_debugpy env = p := by
      unfold check_for_debugpy
      rw [h1]
    rw [hc]
    exact strategy1_hit env p h1
  | none =>
    cases h2 : strategy2 env with
    | some p =>
      have hc : check_for_debugpy env = p := by
        unfold check_for_debugpy
        rw [h1, h2]
      rw [hc]
      exact strategy2_hit env p h2
    | none =>
      cases h3 : strategy3 env with
      | some p =>
        have hc : check_for_debugpy env = p := by
          unfold check_for_debugpy
          rw [h1, h2, h3]
        rw [hc]
        exact strategy3_hit env p h3
      | none =>
        cases h4 : strategy4 env with
        | some p =>
          have hc : check_for_debugpy env = p := by
            unfold check_for_debugpy
            rw [h1, h2, h3, h4]
          rw [hc]
          exact strategy4_hit env p h4
        | none =>
          exfalso
          apply h
          unfold check_for_debugpy
          rw [h1, h2, h3, h4]

/-- Witness for C5 at a concrete environment returning a real path. -/
theorem c5_resolver_result_witness :
    ¬ check_for_debugpy envResultHit = NOT_FOUND_MESSAGE ∧
    envResultHit.pathExists (pathJoin (check_for_debugpy envResultHit) "debugpy") = true :=
  ⟨by decide, c5_resolver_result_contains_package envResultHit (by decide)⟩

/-- C1 counterexample: starting from an empty interpreter state with a spec
available for `debugpy`, the first `import_module` call returns the new
module (identity `0`), while the second call — the alias now being in
`sys.modules` — returns `None`, not the same module reference; the source's
early-exit branch is `return None`, not `return sys.modules[alias_name]`. -/
theorem c1_import_module_counterexample :
    (import_module (fun m => m == "debugpy") "debugpy" none true
      (⟨[], [], 0⟩ : PyState)).1 = some 0 ∧
    (import_module (fun m => m == "debugpy") "debugpy" none true
      (import_module (fun m => m == "debugpy") "debugpy" none true
        (⟨[], [], 0⟩ : PyState)).2).1 = none ∧
    ¬ ((import_module (fun m => m == "debugpy") "debugpy" none true
        (import_module (fun m => m == "debugpy") "debugpy" none true
          (⟨[], [], 0⟩ : PyState)).2).1
      = (import_module (fun m => m == "debugpy") "debugpy" none true
          (⟨[], [], 0⟩ : PyState)).1) := by
  decide

/-- C1 (amended): `import_module` called twice for the same dependency
executes the module's initialization code only once — the first call returns
the freshly created module and appends exactly one entry to the execution
log, and the second call, finding the alias in `sys.modules`, returns `None`
(not the module) and leaves the interpreter state completely unchanged, so
no reload and no re-execution happens. -/
theorem c1_import_module_single_execution (findSpec : String → Bool) (mn : String)
    (s : PyState) (h1 : s.sysModules.lookup mn = none) (h2 : findSpec mn = true) :
    (import_module findSpec mn none true s).1 = some s.nextId ∧
    (import_module findSpec mn none true s).2.execLog = s.execLog ++ [s.nextId] ∧
    import_module findSpec mn none true (import_module findSpec mn none true s).2
      = (none, (import_module findSpec mn none true s).2) := by
  have hfirst : import_module findSpec mn none true s
      = (some s.nextId,
        { sysModules := (mn, s.nextId) :: s.sysModules
          execLog := s.execLog ++ [s.nextId]
          nextId := s.nextId + 1 }) := by
    unfold import_module
    simp [Option.getD, h1, h2]
  refine ⟨by rw [hfirst], by rw [hfirst], ?_⟩
  rw [hfirst]
  unfold import_module
  simp [Option.getD, List.lookup]

/-- Witness for C1's amended theorem at a concrete fresh state. -/
theorem c1_import_module_single_execution_witness :
    (import_module (fun m => m == "debugpy") "debugpy" none true
      (⟨[], [], 0⟩ : PyState)).1 = some 0 ∧
    (import_module (fun m => m == "debugpy") "debugpy" none true
      (⟨[], [], 0⟩ : PyState)).2.execLog = [] ++ [0] ∧
    import_module (fun m => m == "debugpy") "debugpy" none true
      (import_module (fun m => m == "debugpy") "debugpy" none true
        (⟨[], [], 0⟩ : PyState)).2
      = (none, (import_module (fun m => m == "debugpy") "debugpy" none true
          (⟨[], [], 0⟩ : PyState)).2) :=
  c1_import_module_single_execution (fun m => m == "debugpy") "debugpy"
    (⟨[], [], 0⟩ : PyState) rfl rfl

/-- C2: evaluation of the install operator at a failing input. With the
declared dependency list `[debugpy]` and the package-manager subprocess
exiting with status `1` on every invocation, `install_module` catches the
`CalledProcessError` internally and only prints it, so the operator's
`except` branch never runs: the run returns `FINISHED`, reports nothing to
the UI, and the only trace of the failure is the console print — the
operator does not report an error and does not return `CANCELLED`. -/
theorem c2_install_failure_not_surfaced :
    DEPENDENCY_OT_install_dependencies_execute "python" (fun _ => 1)
      (some [Dependency.make "debugpy" none none none none]) ""
      = Except.ok (OpResult.FINISHED,
          { calls := [{ argv := ["python", "-m", "pip", "install", "--upgrade", "debugpy"]
                        pythonNoUserSite := true }]
            reports := []
            printed := ["CalledProcessError: debugpy"] }) := by
  rfl

/-- C6: `check_dependency_state` answers `true` exactly when the module is
already in `sys.modules` or the module-finding facility reports a spec for
it, and it leaves the interpreter state — in particular the log of executed
module initializations — untouched: the check never imports the module. -/
theorem c6_check_dependency_state_pure (findSpec : String → Bool) (d : Dependency)
    (s : PyState) :
    ((check_dependency_state findSpec (some d) s).1 = true ↔
      ((s.sysModules.lookup d.module).isSome = true ∨ findSpec d.module = true)) ∧
    (check_dependency_state findSpec (some d) s).2 = s := by
  unfold check_dependency_state
  by_cases hmem : (s.sysModules.lookup d.module).isSome = true
  · simp [hmem]
  · by_cases hspec : findSpec d.module = true
    · simp [hmem, hspec]
    · simp [hmem, hspec]

/-- C7: installing with a version constraint spawns exactly one
package-manager subprocess with argument list
`[pythonExecutable, "-m", "pip", "install", "--upgrade", package ++ constraint]`
(for constraint `==1.2.3` the requirement string is `package==1.2.3`),
with `PYTHONNOUSERSITE` set in the child environment — whatever the exit
status turns out to be. -/
theorem c7_install_invocation (pythonExe : String) (exitCode : List String → Int)
    (pkg constraint : String) :
    (install_module pythonExe exitCode (some pkg) (some constraint)).calls
      = [{ argv := [pythonExe, "-m", "pip", "install", "--upgrade", pkg ++ constraint]
           pythonNoUserSite := true }] := by
  unfold install_module
  simp [Option.getD]
  split
  · rfl
  · rfl

/-- C8: the attach-confirmation poller is the bounded-retry state machine
the claim describes. Each `modal` call increments the counter; once the
counter exceeds the limit the tick reports timeout (`CANCELLED`); a tick
with the flag true and the limit not exceeded reports attachment
(`FINISHED`); a tick with the flag false and the limit not exceeded is a
no-op yielding control to the host (`PASS_THROUGH`); the host driver stops
at the first non-`PASS_THROUGH` result, making timeout and attachment
terminal; and with limit `5` and the flag never true the driven run ends in
timeout exactly at tick `6`. -/
theorem c8_poller_state_machine :
    (∀ limit conn count ev, (DebuggerCheck_modal limit conn count ev).2 = count + 1) ∧
    (∀ i limit b, i > limit → check_done i limit b = OpResult.CANCELLED) ∧
    (∀ i limit, i ≤ limit → check_done i limit true = OpResult.FINISHED) ∧
    (∀ i limit, i ≤ limit → check_done i limit false = OpResult.PASS_THROUGH) ∧
    runPoller 5 (fun _ => false) 10 0 = some (OpResult.CANCELLED, 6) := by
  refine ⟨?_, ?_, ?_, ?_, ?_⟩
  · intro limit conn count ev
    unfold DebuggerCheck_modal
    by_cases hev : ev = true
    · simp [hev]
    · simp [hev]
  · intro i limit b h
    unfold check_done
    rw [if_pos h]
  · intro i limit h
    unfold check_done
    rw [if_neg (Nat.not_lt.mpr h)]
    rfl
  · intro i limit h
    unfold check_done
    rw [if_neg (Nat.not_lt.mpr h)]
    rfl
  · rfl

/-- Witness for C8: the tick-level transitions applied at concrete counter
values, next to the concrete driven run. -/
theorem c8_poller_state_machine_witness :
    check_done 7 5 false = OpResult.CANCELLED ∧
    check_done 3 5 true = OpResult.FINISHED ∧
    check_done 3 5 false = OpResult.PASS_THROUGH ∧
    (DebuggerCheck_modal 5 (fun _ => false) 0 true).2 = 1 ∧
    runPoller 5 (fun _ => false) 10 0 = some (OpResult.CANCELLED, 6) :=
  ⟨c8_poller_state_machine.2.1 7 5 false (by decide),
   c8_poller_state_machine.2.2.1 3 5 (by decide),
   c8_poller_state_machine.2.2.2.1 3 5 (by decide),
   c8_poller_state_machine.1 5 (fun _ => false) 0 true,
   c8_poller_state_machine.2.2.2.2⟩

/-- C9 counterexample: the preferences class does declare a `timeout`
integer preference, but its default is `20`, not `1200` — no preference with
default `1200` is declared. -/
theorem c9_preferences_counterexample :
    PrefProp.intProp "timeout" 20 none none ∈ DebuggerPreferences_props ∧
    ¬ PrefProp.intProp "timeout" 1200 none none ∈ DebuggerPreferences_props := by
  decide

/-- C9 (amended): the plugin declares exactly three persisted preference
values — the install path (a string), the timeout (an integer number of
seconds with default `20`), and the port (an integer constrained to
`0`–`65535` with default `5678`). -/
theorem c9_preferences_surface :
    DebuggerPreferences_props.length = 3 ∧
    PrefProp.stringProp "path" "DIR_PATH" ∈ DebuggerPreferences_props ∧
    PrefProp.intProp "timeout" 20 none none ∈ DebuggerPreferences_props ∧
    PrefProp.intProp "port" 5678 (some 0) (some 65535) ∈ DebuggerPreferences_props := by
  decide

/-- C10: with no dependency list declared (`dependencies = None`), every
public operation degrades without side effects: `check_all_dependencies`
returns `false`, and both the install and the uninstall operator return
`CANCELLED` with an empty trace — no package-manager subprocess is spawned,
nothing is reported, nothing is printed. -/
theorem c10_none_dependencies_degrade (pythonExe : String)
    (exitCode : List String → Int) (findSpec : String → Bool) (s : PyState)
    (package_name : String) :
    check_all_dependencies findSpec none s = false ∧
    DEPENDENCY_OT_install_dependencies_execute pythonExe exitCode none package_name
      = Except.ok (OpResult.CANCELLED, { calls := [], reports := [], printed := [] }) ∧
    DEPENDENCY_OT_uninstall_dependencies_execute pythonExe exitCode none package_name
      = Except.ok (OpResult.CANCELLED, { calls := [], reports := [], printed := [] }) :=
  ⟨rfl, rfl, rfl⟩

end BlenderDebugger
